import Mathlib

/-!
Verification development for the Offensive-Recon-Tool repository.

The development shallowly embeds the concurrent probing engine of the tool:
the port-scan module (src/modules/portscan_module.py), the banner-grabbing
module (src/modules/banner.py) and the input validator
(src/modules/validator.py).  Network effects are modelled by explicit
oracles: the outcome of DNS resolution is an `Option String` parameter, the
outcome of each per-port probe is a function parameter, and the arrival
order of completed futures (Python `as_completed`) is a list parameter that
the theorems constrain to be a permutation of the submitted port list.
User interruption (`KeyboardInterrupt`) and executor-level exceptions are
modelled by an optional abort parameter carrying the number of futures that
were collected before the loop stopped plus the error message of the
corresponding handler.  Machine floats (timeouts) are modelled by rational
numbers.
-/

namespace PortScan

/-- Service mapping for common ports (portscan_module.SERVICE_MAP). -/
def SERVICE_MAP : List (Int × String) :=
  [(20, "ftp-data"), (21, "ftp"), (22, "ssh"), (23, "telnet"), (25, "smtp"),
   (53, "dns"), (80, "http"), (110, "pop3"), (143, "imap"), (443, "https"),
   (465, "smtps"), (587, "smtp-submission"), (993, "imaps"), (995, "pop3s"),
   (3306, "mysql"), (3389, "rdp"), (5432, "postgresql"), (5900, "vnc"),
   (6379, "redis"), (8080, "http-proxy"), (8443, "https-alt"), (27017, "mongodb")]

/-- Default ports to scan if not specified (portscan_module.DEFAULT_PORTS). -/
def DEFAULT_PORTS : List Int :=
  [21, 22, 23, 25, 53, 80, 110, 143, 443, 465, 587, 993, 995, 3306, 3389, 5432, 8080, 8443]

/-- portscan_module._get_service_name: service name for a port, or unknown. -/
def get_service_name (port : Int) : String :=
  (SERVICE_MAP.lookup port).getD "unknown"

/-- Outcome of the Python call sock.connect_ex / connect: either it returns an
errno code, or it raises one of the exception classes that the source handles
( socket.timeout, socket.error, any other Exception). -/
inductive ConnectOutcome
  | ret (code : Int)
  | timeoutExc
  | sockErr
  | otherExc
deriving DecidableEq

/-- Result of running one probe to completion: the value the Python function
call produces (Except.error models an exception propagating out of the
function) together with whether the socket acquired by the probe had been
closed when the function exited. -/
structure ProbeExec (α : Type) where
  result : Except String (Option α)
  closed : Bool

/-- Message of the ValueError that CPython raises when sock.settimeout is
called with a negative value. -/
def timeoutValueError : String := "Timeout value out of range"

/-- portscan_module._scan_port: create a socket, call settimeout (OUTSIDE the
try/finally, so a negative timeout raises and skips the finally block), then
try connect_ex inside try/except/finally; every handled path returns port or
none and the finally block closes the socket. -/
def scan_port_exec (co : ConnectOutcome) (port : Int) (timeout : ℚ) : ProbeExec Int :=
  if timeout < 0 then
    { result := Except.error timeoutValueError, closed := false }
  else
    match co with
    | .ret code =>
        { result := Except.ok (if code = 0 then some port else none), closed := true }
    | .timeoutExc => { result := Except.ok none, closed := true }
    | .sockErr => { result := Except.ok none, closed := true }
    | .otherExc => { result := Except.ok none, closed := true }

/-- The value of a "ports" entry of the configuration dictionary: a list, a
2-tuple whose int conversion may fail ( none models int() raising), or a value
of any other shape. -/
inductive RawPorts
  | pylist (l : List Int)
  | pyrange (conv : Option (Int × Int))
  | other

/-- A configuration dictionary as far as _parse_config inspects it.  For each
key, the outer Option is key presence; the inner Option models whether the
float() / int() conversion succeeds. -/
structure RawConfig where
  timeout : Option (Option ℚ)
  ports : Option RawPorts
  max_workers : Option (Option Int)

/-- The parsed configuration produced by _parse_config. -/
structure ScanConfig where
  timeout : ℚ
  ports : List Int
  max_workers : Int
  scan_type : String

/-- Python list(range(s, e + 1)). -/
def rangeList (s e : Int) : List Int :=
  (List.range (e + 1 - s).toNat).map (fun i => s + (i : Int))

/-- The default configuration of _parse_config. -/
def default_config : ScanConfig :=
  { timeout := 1.5, ports := DEFAULT_PORTS, max_workers := 50, scan_type := "tcp_connect" }

/-- portscan_module._parse_config: merge the given dictionary with the
defaults.  A failing float()/int() conversion keeps the default; a "ports"
value that is neither a list nor a convertible 2-tuple silently keeps the
default port list; integer values for max_workers are taken as they are,
without any positivity check. -/
def parse_config (config : Option RawConfig) : ScanConfig :=
  match config with
  | none => default_config
  | some c =>
      { timeout :=
          match c.timeout with
          | some (some q) => q
          | some none => default_config.timeout
          | none => default_config.timeout
        ports :=
          match c.ports with
          | some (.pylist l) => l
          | some (.pyrange (some (s, e))) => rangeList s e
          | some (.pyrange none) => default_config.ports
          | some .other => default_config.ports
          | none => default_config.ports
        max_workers :=
          match c.max_workers with
          | some (some n) => n
          | some none => default_config.max_workers
          | none => default_config.max_workers
        scan_type := default_config.scan_type }

/-- One entry of the open_ports list of a report. -/
structure PortEntry where
  port : Int
  service : String
deriving DecidableEq

/-- The dictionary appended for an open port in portscan_module.run. -/
def mkPortEntry (port : Int) : PortEntry :=
  { port := port, service := get_service_name port }

/-- The port_scan report dictionary returned by portscan_module.run. -/
structure PortScanReport where
  resolved_ip : Option String
  scan_type : String
  open_ports : List PortEntry
  scan_time : String
  error : Option String
deriving DecidableEq

/-- Comparison used by open_ports.sort with key x.port. -/
def entryLE (a b : PortEntry) : Prop := a.port ≤ b.port

instance : DecidableRel entryLE := fun a b => inferInstanceAs (Decidable (a.port ≤ b.port))

instance : IsTotal PortEntry entryLE := ⟨fun a b => Int.le_total a.port b.port⟩

instance : IsTrans PortEntry entryLE := ⟨fun _ _ _ h h2 => le_trans h h2⟩

/-- Python list.sort(key=lambda x: x.port): a stable sort by port. -/
def sortEntries (l : List PortEntry) : List PortEntry :=
  List.insertionSort entryLE l

/-- The open-port entries produced by the collection loop of
portscan_module.run over the futures that complete in the given order:
a future whose probe reports the port open contributes one entry.  The
`openOracle` argument models, per port, whether _scan_port returned the port
(open); false covers the closed, failed and raised-future cases, none of
which append an entry. -/
def collectOpen (openOracle : Int → Bool) (order : List Int) : List PortEntry :=
  (order.filter openOracle).map mkPortEntry

/-- ValueError message of ThreadPoolExecutor for a non-positive worker
count; the constructor raises it before any future is submitted and
portscan_module.run catches it in the generic `except Exception` clause. -/
def badWorkersError : String := "max_workers must be greater than 0"

/-- Message of the KeyboardInterrupt handler of portscan_module.run. -/
def interruptedError : String := "Scan interrupted by user"

/-- portscan_module.run.  `resolve` is the outcome of _resolve_target,
`openOracle` the per-port probe outcome, `order` the order in which
as_completed yields the futures (the theorems assume it is a permutation of
the parsed port list), `abort` models the loop stopping early — after
`abort.1` collected futures — because of KeyboardInterrupt or an executor
exception whose handler stores the message `abort.2`; in that case the sort
at the end of the loop is never reached and the partial list is returned as
it stands. -/
def run (target : String) (resolve : Option String) (openOracle : Int → Bool)
    (order : List Int) (abort : Option (Nat × String)) (now : String)
    (config : Option RawConfig) : PortScanReport :=
  let cfg := parse_config config
  match resolve with
  | none =>
      { resolved_ip := none, scan_type := cfg.scan_type, open_ports := [],
        scan_time := now, error := some ("Failed to resolve target: " ++ target) }
  | some ip =>
      if cfg.max_workers ≤ 0 then
        { resolved_ip := some ip, scan_type := cfg.scan_type, open_ports := [],
          scan_time := now, error := some badWorkersError }
      else
        match abort with
        | none =>
            { resolved_ip := some ip, scan_type := cfg.scan_type,
              open_ports := sortEntries (collectOpen openOracle order),
              scan_time := now, error := none }
        | some (k, msg) =>
            { resolved_ip := some ip, scan_type := cfg.scan_type,
              open_ports := collectOpen openOracle (order.take k),
              scan_time := now, error := some msg }

end PortScan

namespace Banner

/-- Common ports for banner grabbing (banner.BANNER_PORTS). -/
def BANNER_PORTS : List Int := [21, 22, 25, 80, 110, 143, 443, 3306, 5432, 6379, 8080]

/-- The well-known web ports of the HTTP fallback in banner._grab_banner. -/
def webPorts : List Int := [80, 443, 8080, 8443]

/-- The byte cap passed to every sock.recv call of banner._grab_banner. -/
def recvCap : Nat := 1024

/-- The errors argument of bytes.decode in the source ( ignore drops invalid
bytes; replace would substitute U+FFFD, which is what the spec describes). -/
inductive DecodeMode
  | ignore
  | replace
deriving DecidableEq

/-- Models the Python call bytes.decode(utf-8, errors=mode) for byte streams
made of ASCII bytes and isolated invalid bytes: an ASCII byte decodes to its
character, any other byte is treated as invalid and is dropped (mode ignore)
or replaced by U+FFFD (mode replace).  Valid multi-byte UTF-8 sequences are
outside this model; no claim depends on them. -/
def decodeByte (mode : DecodeMode) (b : Nat) : List Char :=
  if b < 128 then [Char.ofNat b]
  else
    match mode with
    | .ignore => []
    | .replace => [Char.ofNat 0xFFFD]

/-- Decode a whole byte list (see decodeByte). -/
def decodeChars (mode : DecodeMode) : List Nat → List Char
  | [] => []
  | b :: bs => decodeByte mode b ++ decodeChars mode bs

/-- String form of decodeChars. -/
def decodeBytes (mode : DecodeMode) (bs : List Nat) : String :=
  ⟨decodeChars mode bs⟩

/-- The whitespace characters stripped by Python str.strip. -/
def pySpace (c : Char) : Bool :=
  c = ' ' || c = '\t' || c = '\n' || c = '\x0d' || c = '\x0b' || c = '\x0c'

/-- Python str.strip(): remove leading and trailing whitespace. -/
def stripStr (s : String) : String :=
  ⟨((s.toList.dropWhile pySpace).reverse.dropWhile pySpace).reverse⟩

/-- The processing applied in the source to the bytes returned by each
successful sock.recv(1024): sock.recv(1024).decode(utf-8, ignore).strip().
The recv cap is modelled by taking at most recvCap bytes of the data the
peer would deliver. -/
def cleanRecv (bs : List Nat) : String :=
  stripStr (decodeBytes .ignore (bs.take recvCap))

/-- The final length cap of banner._grab_banner:
banner[:500] if len(banner) > 500 else banner. -/
def truncateBanner (s : String) : String :=
  if 500 < s.length then ⟨s.toList.take 500⟩ else s

/-- ASCII-wise str.lower of the source (all patterns are ASCII). -/
def toLowerStr (s : String) : String :=
  ⟨s.toList.map Char.toLower⟩

/-- pat == the empty list or pat is an initial segment of the second list. -/
def startsWithL : List Char → List Char → Bool
  | [], _ => true
  | _ :: _, [] => false
  | p :: ps, c :: cs => p == c && startsWithL ps cs

/-- The pattern occurs as a contiguous segment of the second list: the
Python substring test pat in s. -/
def hasSeg (pat : List Char) : List Char → Bool
  | [] => pat.isEmpty
  | c :: rest => startsWithL pat (c :: rest) || hasSeg pat rest

/-- Python substring containment pat in s on strings. -/
def containsSub (s pat : String) : Bool :=
  hasSeg pat.toList s.toList

/-- The static port hint table of banner._identify_service. -/
def port_hints : List (Int × String) :=
  [(21, "FTP"), (22, "SSH"), (25, "SMTP"), (80, "HTTP"), (110, "POP3"),
   (143, "IMAP"), (443, "HTTPS"), (3306, "MySQL"), (5432, "PostgreSQL"),
   (6379, "Redis"), (8080, "HTTP-Proxy")]

/-- banner._identify_service: the if/elif chain over the lower-cased banner,
falling back to the port hint table, falling back to Unknown. -/
def identify_service (banner : String) (port : Int) : String :=
  let bl := toLowerStr banner
  if containsSub bl "apache" then "Apache HTTP Server"
  else if containsSub bl "nginx" then "Nginx"
  else if containsSub bl "microsoft-iis" || containsSub bl "iis" then "Microsoft IIS"
  else if containsSub bl "lighttpd" then "lighttpd"
  else if containsSub bl "ssh" then
    (if containsSub bl "openssh" then "OpenSSH" else "SSH Server")
  else if containsSub bl "ftp" then
    (if containsSub bl "vsftpd" then "vsftpd"
     else if containsSub bl "proftpd" then "ProFTPD"
     else "FTP Server")
  else if containsSub bl "smtp" || containsSub bl "mail" then
    (if containsSub bl "postfix" then "Postfix"
     else if containsSub bl "exim" then "Exim"
     else "Mail Server")
  else if containsSub bl "mysql" then "MySQL"
  else if containsSub bl "postgresql" || containsSub bl "postgres" then "PostgreSQL"
  else if containsSub bl "redis" then "Redis"
  else if containsSub bl "mongodb" || containsSub bl "mongo" then "MongoDB"
  else (port_hints.lookup port).getD "Unknown"

/-- Outcome of one sock.recv call: data delivered by the peer, a
socket.timeout, a socket.error, or any other exception. -/
inductive RecvOutcome
  | ok (bs : List Nat)
  | timeout
  | sockErr
  | otherErr
deriving DecidableEq

/-- The network environment one _grab_banner invocation runs against: the
connect outcome, the outcomes of the up-to-three recv calls, and whether each
of the two send calls succeeds ( false models the send raising). -/
structure BannerWorld where
  connect : PortScan.ConnectOutcome
  recv1 : RecvOutcome
  sendHeadOk : Bool
  recv2 : RecvOutcome
  sendCrlfOk : Bool
  recv3 : RecvOutcome

/-- One entry of the banners list of a report. -/
structure BannerEntry where
  port : Int
  banner : String
  service : String
deriving DecidableEq

/-- The dictionary built by banner._grab_banner for a non-empty banner:
the banner is truncated first; the service is identified from the truncated
banner. -/
def mkBannerEntry (port : Int) (s : String) : BannerEntry :=
  let b := truncateBanner s
  { port := port, banner := b, service := identify_service b port }

/-- Observable actions of a banner probe, in the order performed. -/
inductive BAct
  | recvA (cap : Nat)
  | sendHeadA
  | sendCrlfA
deriving DecidableEq

/-- Execution record of one banner._grab_banner invocation: the returned
value (Except.error models an exception propagating out), whether the socket
was closed on exit, and the trace of network actions after the connect. -/
structure GrabExec where
  result : Except String (Option BannerEntry)
  closed : Bool
  trace : List BAct

/-- One fallback try-block of banner._grab_banner (the HTTP HEAD block and
the bare line-terminator block have identical structure): when the stage
runs, the send is attempted; if the send succeeds and the read delivers
data, the cleaned data becomes the banner; any exception of the send or the
read is swallowed by the bare except clause, leaving the banner unchanged. -/
def fallbackRead (run sendOk : Bool) (r : RecvOutcome) (prev : Option String) :
    Option String :=
  if run then
    if sendOk then
      match r with
      | .ok bs => some (cleanRecv bs)
      | _ => prev
    else prev
  else prev

/-- banner._grab_banner, translated statement by statement.  settimeout is
called outside the try/finally, so a negative timeout raises and the socket
is not closed.  The first recv only catches socket.timeout: a socket.error
or other exception there falls through to the outer handlers, which return
None.  The second and third recv sit under bare except clauses, so any
failure there leaves the banner variable unchanged.  The final banner, if
non-empty, is truncated and packaged; the finally clause closes the socket
on every handled path. -/
def grab_banner_exec (w : BannerWorld) (port : Int) (timeout : ℚ) : GrabExec :=
  if timeout < 0 then
    { result := Except.error PortScan.timeoutValueError, closed := false, trace := [] }
  else
    match w.connect with
    | .timeoutExc => { result := Except.ok none, closed := true, trace := [] }
    | .sockErr => { result := Except.ok none, closed := true, trace := [] }
    | .otherExc => { result := Except.ok none, closed := true, trace := [] }
    | .ret code =>
      if code ≠ 0 then { result := Except.ok none, closed := true, trace := [] }
      else
        match w.recv1 with
        | .sockErr =>
            { result := Except.ok none, closed := true, trace := [BAct.recvA recvCap] }
        | .otherErr =>
            { result := Except.ok none, closed := true, trace := [BAct.recvA recvCap] }
        | r1 =>
          let b1 : Option String :=
            match r1 with
            | .ok bs => some (cleanRecv bs)
            | _ => none
          let empty1 : Bool := match b1 with
            | none => true
            | some s => s = ""
          let s2 : Bool := empty1 && webPorts.contains port
          let b2 : Option String := fallbackRead s2 w.sendHeadOk w.recv2 b1
          let empty2 : Bool := match b2 with
            | none => true
            | some s => s = ""
          let b3 : Option String := fallbackRead empty2 w.sendCrlfOk w.recv3 b2
          let tr : List BAct :=
            [BAct.recvA recvCap]
              ++ (if s2 then
                    BAct.sendHeadA :: (if w.sendHeadOk then [BAct.recvA recvCap] else [])
                  else [])
              ++ (if empty2 then
                    BAct.sendCrlfA :: (if w.sendCrlfOk then [BAct.recvA recvCap] else [])
                  else [])
          let res : Option BannerEntry :=
            match b3 with
            | some s => if s = "" then none else some (mkBannerEntry port s)
            | none => none
          { result := Except.ok res, closed := true, trace := tr }

/-- Claim-side description of the first probe step (spec 4.3, step 1): the
result of the passive read — the cleaned data, or nothing on a timeout. -/
def passiveResult (w : BannerWorld) : Option String :=
  match w.recv1 with
  | .ok bs => some (cleanRecv bs)
  | _ => none

/-- Claim-side: the banner so far is empty (Python truthiness of the banner
variable: None or the empty string). -/
def bannerEmpty : Option String → Bool
  | none => true
  | some s => s = ""

/-- Claim-side (spec 4.3, step 2): the HTTP HEAD fallback stage runs exactly
when the passive result is empty and the port is a well-known web port. -/
def headStageRuns (w : BannerWorld) (port : Int) : Bool :=
  bannerEmpty (passiveResult w) && webPorts.contains port

/-- Claim-side: the banner after the HEAD stage — the cleaned data of the
second read when the stage runs and the read delivers data, otherwise the
banner is unchanged. -/
def headStageResult (w : BannerWorld) (port : Int) : Option String :=
  if headStageRuns w port then
    match w.recv2 with
    | .ok bs => some (cleanRecv bs)
    | _ => passiveResult w
  else passiveResult w

/-- Every pattern the rule chain of _identify_service tests, vendor-specific
and generic. -/
def allPatterns : List String :=
  ["apache", "nginx", "microsoft-iis", "iis", "lighttpd", "openssh", "ssh",
   "vsftpd", "proftpd", "ftp", "postfix", "exim", "smtp", "mail", "mysql",
   "postgresql", "postgres", "redis", "mongodb", "mongo"]

/-- The banner_grab report dictionary returned by banner.run. -/
structure BannerReport where
  target : String
  resolved_ip : Option String
  banners : List BannerEntry
  scan_time : String
  error : Option String
deriving DecidableEq

/-- Comparison used by banners.sort with key x.port. -/
def bEntryLE (a b : BannerEntry) : Prop := a.port ≤ b.port

instance : DecidableRel bEntryLE := fun a b => inferInstanceAs (Decidable (a.port ≤ b.port))

/-- Python banners.sort(key=lambda x: x.port). -/
def sortBanners (l : List BannerEntry) : List BannerEntry :=
  List.insertionSort bEntryLE l

/-- banner.run.  `ports` is the optional explicit port list (default
BANNER_PORTS), `resolve` the outcome of _resolve_target, `probeOracle` the
per-port value returned by _grab_banner (none for no-banner, closed, failed
and raised-future cases), `order` the as_completed arrival order, and
`abort` the early loop stop as in PortScan.run. -/
def bannerRun (target : String) (ports : Option (List Int)) (_timeout : ℚ)
    (max_workers : Int) (resolve : Option String)
    (probeOracle : Int → Option BannerEntry) (order : List Int)
    (abort : Option (Nat × String)) (now : String) : BannerReport :=
  let _ps := ports.getD BANNER_PORTS
  match resolve with
  | none =>
      { target := target, resolved_ip := none, banners := [], scan_time := now,
        error := some ("Failed to resolve target: " ++ target) }
  | some ip =>
      if max_workers ≤ 0 then
        { target := target, resolved_ip := some ip, banners := [], scan_time := now,
          error := some PortScan.badWorkersError }
      else
        match abort with
        | none =>
            { target := target, resolved_ip := some ip,
              banners := sortBanners (order.filterMap probeOracle),
              scan_time := now, error := none }
        | some (k, msg) =>
            { target := target, resolved_ip := some ip,
              banners := (order.take k).filterMap probeOracle,
              scan_time := now, error := some msg }

end Banner

namespace Validator

/-- The ports argument of validator.validate_ports: absent, an (s, e) tuple,
a list of integers, or a value of any other shape.  List elements are
modelled as integers; a list with a non-integer element fails the same
isinstance branch as an out-of-range element. -/
inductive PortsInput
  | noPorts
  | range (s e : Int)
  | plist (l : List Int)
  | other

/-- Result dictionary of validate_ports. -/
structure PortsCheck where
  valid : Bool
  ports : Option (List Int)
  error : Option String
deriving DecidableEq

/-- First element of the list that fails the 1 ≤ p ≤ 65535 bound, in the
order the loop of validate_ports visits them. -/
def firstBadPort : List Int → Option Int
  | [] => none
  | p :: rest => if p < 1 ∨ 65535 < p then some p else firstBadPort rest

/-- validator.validate_ports. -/
def validate_ports : PortsInput → PortsCheck
  | .noPorts => { valid := true, ports := none, error := none }
  | .range s e =>
      if s < 1 ∨ 65535 < e ∨ e < s then
        { valid := false, ports := none, error := some "Invalid port range" }
      else
        { valid := true, ports := some (PortScan.rangeList s e), error := none }
  | .plist l =>
      match firstBadPort l with
      | some p =>
          { valid := false, ports := none,
            error := some ("Invalid port value: " ++ toString p) }
      | none => { valid := true, ports := some l, error := none }
  | .other =>
      { valid := false, ports := none, error := some "Ports must be a list or range" }

/-- Result dictionary of the scalar validators. -/
structure Check where
  valid : Bool
  error : Option String
deriving DecidableEq

/-- validator.validate_timeout (the argument is modelled as already numeric:
the CLI parses it with type=float). -/
def validate_timeout (timeout : ℚ) : Check :=
  if timeout < 0.5 ∨ 30 < timeout then
    { valid := false, error := some "Timeout must be between 0.5 and 30 seconds" }
  else { valid := true, error := none }

/-- validator.validate_workers (the argument is modelled as already an
integer: the CLI parses it with type=int). -/
def validate_workers (workers : Int) : Check :=
  if workers < 1 ∨ 200 < workers then
    { valid := false, error := some "Workers must be between 1 and 200" }
  else { valid := true, error := none }

/-- The port-scan options section of validator.validate_main_inputs
(lines 328-341): run validate_ports, validate_timeout and validate_workers
in that order and return the first failing check; the sections after it
(DNS options, output filename) are outside the scope of the claims. -/
def validate_scan_options (ports : PortsInput) (timeout : ℚ) (workers : Int) : Check :=
  let pc := validate_ports ports
  if !pc.valid then { valid := false, error := pc.error }
  else
    let tc := validate_timeout timeout
    if !tc.valid then { valid := false, error := tc.error }
    else
      let wc := validate_workers workers
      if !wc.valid then { valid := false, error := wc.error }
      else { valid := true, error := none }

end Validator

/-! ## Helper lemmas -/

/-- Every entry produced by the collection loop carries a port of the
collected order and the service name of its own port. -/
theorem mem_collectOpen {oracle : Int → Bool} {l : List Int} {e : PortScan.PortEntry}
    (h : e ∈ PortScan.collectOpen oracle l) :
    e.port ∈ l ∧ e.service = PortScan.get_service_name e.port := by
  simp only [PortScan.collectOpen, List.mem_map, List.mem_filter] at h
  obtain ⟨p, ⟨hp, _⟩, rfl⟩ := h
  exact ⟨hp, rfl⟩

/-- Mapping the port field over the collected entries recovers the filtered
collection order. -/
theorem map_port_collectOpen (oracle : Int → Bool) (l : List Int) :
    (PortScan.collectOpen oracle l).map PortScan.PortEntry.port = l.filter oracle := by
  simp [PortScan.collectOpen, List.map_map]
  exact List.map_id _

/-- A fallback stage that does not run leaves the banner unchanged. -/
theorem fallbackRead_not_run (d : Bool) (r : Banner.RecvOutcome) (prev : Option String) :
    Banner.fallbackRead false d r prev = prev := rfl

/-- A fallback read can only produce a banner that was already present or
that is the cleaned data of its own read. -/
theorem fallbackRead_origin {c d : Bool} {r : Banner.RecvOutcome}
    {prev : Option String} {s : String}
    (h : Banner.fallbackRead c d r prev = some s) :
    prev = some s ∨ ∃ bs, r = .ok bs ∧ s = Banner.cleanRecv bs := by
  unfold Banner.fallbackRead at h
  split at h
  · split at h
    · cases r with
      | ok bs =>
          injection h with h1
          exact Or.inr ⟨bs, rfl, h1.symm⟩
      | timeout => exact Or.inl h
      | sockErr => exact Or.inl h
      | otherErr => exact Or.inl h
    · exact Or.inl h
  · exact Or.inl h

/-- Truncation of a non-empty string is non-empty. -/
theorem truncateBanner_ne_empty {s : String} (hs : s ≠ "") :
    Banner.truncateBanner s ≠ "" := by
  unfold Banner.truncateBanner
  split
  · rename_i hlen
    intro hcon
    have hdata := congrArg String.data hcon
    rw [show (String.mk (s.toList.take 500)).data = s.toList.take 500 from rfl] at hdata
    rw [show ("" : String).data = [] from rfl] at hdata
    rcases List.take_eq_nil_iff.mp hdata with h0 | hnil
    · exact absurd h0 (by decide)
    · rw [show s.toList = s.data from rfl] at hnil
      have hz : s.length = 0 := by
        rw [show s.length = s.data.length from rfl, hnil]
        rfl
      omega
  · exact hs

/-- The truncated banner never exceeds 500 characters. -/
theorem truncateBanner_length (s : String) : (Banner.truncateBanner s).length ≤ 500 := by
  unfold Banner.truncateBanner
  split
  · rw [show (String.mk (s.toList.take 500)).length = (s.toList.take 500).length from rfl]
    rw [List.length_take]
    omega
  · rename_i hlen
    omega

/-- startsWithL is the initial-segment relation. -/
theorem startsWithL_iff {p s : List Char} :
    Banner.startsWithL p s = true ↔ ∃ t, s = p ++ t := by
  induction p generalizing s with
  | nil =>
      simp [Banner.startsWithL]
  | cons a ps ih =>
      cases s with
      | nil => simp [Banner.startsWithL]
      | cons c cs =>
          rw [show Banner.startsWithL (a :: ps) (c :: cs)
              = (a == c && Banner.startsWithL ps cs) from rfl]
          rw [Bool.and_eq_true, beq_iff_eq, ih]
          constructor
          · rintro ⟨rfl, t, rfl⟩
            exact ⟨t, rfl⟩
          · rintro ⟨t, h⟩
            injection h with h1 h2
            exact ⟨h1.symm, t, h2⟩

/-- hasSeg is the contiguous-segment relation. -/
theorem hasSeg_iff {p s : List Char} :
    Banner.hasSeg p s = true ↔ ∃ a b, s = a ++ p ++ b := by
  induction s with
  | nil =>
      simp [Banner.hasSeg]
  | cons c cs ih =>
      rw [show Banner.hasSeg p (c :: cs)
          = (Banner.startsWithL p (c :: cs) || Banner.hasSeg p cs) from rfl]
      rw [Bool.or_eq_true, startsWithL_iff, ih]
      constructor
      · rintro (⟨t, h⟩ | ⟨a, b, rfl⟩)
        · exact ⟨[], t, by simpa using h⟩
        · exact ⟨c :: a, b, rfl⟩
      · rintro ⟨a, b, h⟩
        cases a with
        | nil =>
            left
            exact ⟨b, by simpa using h⟩
        | cons a0 as =>
            right
            injection h with h1 h2
            exact ⟨as, b, h2⟩

/-- A string containing a pattern also contains every contiguous segment of
that pattern. -/
theorem containsSub_trans {s big small : String}
    (hb : Banner.containsSub s big = true)
    (hseg : Banner.hasSeg small.toList big.toList = true) :
    Banner.containsSub s small = true := by
  unfold Banner.containsSub at hb ⊢
  rw [hasSeg_iff] at hb hseg ⊢
  obtain ⟨a, b, hab⟩ := hb
  obtain ⟨c, d, hcd⟩ := hseg
  refine ⟨a ++ c, d ++ b, ?_⟩
  rw [hab, hcd]
  simp [List.append_assoc]

/-- If the list has a member outside the 1..65535 bound, the loop of
validate_ports finds a first offending element. -/
theorem firstBadPort_isSome {l : List Int} {p : Int} (hp : p ∈ l)
    (hbad : p < 1 ∨ 65535 < p) : (Validator.firstBadPort l).isSome = true := by
  induction l with
  | nil => cases hp
  | cons q rest ih =>
      unfold Validator.firstBadPort
      by_cases hq : q < 1 ∨ 65535 < q
      · rw [if_pos hq]; rfl
      · rw [if_neg hq]
        rcases List.mem_cons.mp hp with rfl | hmem
        · exact absurd hbad hq
        · exact ih hmem

/-! ## Claims -/

/-- C1 counterexample: an input port list with a duplicate port produces one
future per occurrence, so the open_ports list of a completed run contains
the duplicate twice and is not strictly increasing; the claim fails for
inputs with duplicate port numbers. -/
theorem claim_C1_counterexample :
    ([80, 80] : List Int).Perm
      (PortScan.parse_config (some ⟨none, some (.pylist [80, 80]), none⟩)).ports ∧
    ((PortScan.run "t" (some "1.2.3.4") (fun _ => true) [80, 80] none ""
        (some ⟨none, some (.pylist [80, 80]), none⟩)).open_ports.map
          PortScan.PortEntry.port) = [80, 80] ∧
    ¬ ((PortScan.run "t" (some "1.2.3.4") (fun _ => true) [80, 80] none ""
        (some ⟨none, some (.pylist [80, 80]), none⟩)).open_ports.map
          PortScan.PortEntry.port).Pairwise (· < ·) := by
  refine ⟨List.Perm.refl _, rfl, ?_⟩
  intro h
  rw [show ((PortScan.run "t" (some "1.2.3.4") (fun _ => true) [80, 80] none ""
      (some ⟨none, some (.pylist [80, 80]), none⟩)).open_ports.map
        PortScan.PortEntry.port) = [80, 80] from rfl] at h
  exact absurd (List.rel_of_pairwise_cons h (List.mem_cons_self _ _)) (by decide)

/-- C1 amended: for every input port list without duplicate port numbers, in
a run that completes without interruption, the open_ports list of the report
is strictly increasing in its port numbers (hence duplicate-free). -/
theorem claim_C1_amended (target ip : String) (openOracle : Int → Bool)
    (order : List Int) (now : String) (config : Option PortScan.RawConfig)
    (hperm : order.Perm (PortScan.parse_config config).ports)
    (hnd : (PortScan.parse_config config).ports.Nodup) :
    ((PortScan.run target (some ip) openOracle order none now config).open_ports.map
        PortScan.PortEntry.port).Pairwise (· < ·) := by
  unfold PortScan.run
  by_cases hw : (PortScan.parse_config config).max_workers ≤ 0
  · simp [hw]
  · simp only [hw, if_neg, if_false]
    set CL := PortScan.collectOpen openOracle order with hCL
    have hsorted : List.Sorted PortScan.entryLE (PortScan.sortEntries CL) :=
      List.sorted_insertionSort PortScan.entryLE CL
    have hle : ((PortScan.sortEntries CL).map PortScan.PortEntry.port).Pairwise (· ≤ ·) :=
      List.pairwise_map.mpr hsorted
    have hordn : order.Nodup := hperm.nodup_iff.mpr hnd
    have hfil : (order.filter openOracle).Nodup := hordn.filter _
    have hmapCL : CL.map PortScan.PortEntry.port = order.filter openOracle :=
      map_port_collectOpen openOracle order
    have hpermmap : List.Perm ((PortScan.sortEntries CL).map PortScan.PortEntry.port)
        (CL.map PortScan.PortEntry.port) :=
      (List.perm_insertionSort PortScan.entryLE CL).map _
    have hnodup : ((PortScan.sortEntries CL).map PortScan.PortEntry.port).Nodup :=
      hpermmap.nodup_iff.mpr (hmapCL ▸ hfil)
    exact List.Sorted.lt_of_le hle hnodup

/-- C1 witness: the amended statement applied to a duplicate-free run over
the default port list with two ports open. -/
theorem claim_C1_witness :
    PortScan.DEFAULT_PORTS.Perm (PortScan.parse_config none).ports ∧
    (PortScan.parse_config none).ports.Nodup ∧
    ((PortScan.run "t" (some "1.2.3.4") (fun p => p == 80 || p == 22)
        PortScan.DEFAULT_PORTS none "" none).open_ports.map
          PortScan.PortEntry.port).Pairwise (· < ·) :=
  ⟨List.Perm.refl _, by decide,
   claim_C1_amended "t" "1.2.3.4" (fun p => p == 80 || p == 22)
     PortScan.DEFAULT_PORTS "" none (List.Perm.refl _) (by decide)⟩

/-- C2: for every target whose resolution fails and every requested port
set, the run operations of both modules return a report whose error field is
the non-empty string "Failed to resolve target: " followed by the target,
whose resolved_ip is none and whose result list is empty; the report does
not depend on the probe oracle, the completion order or the abort behaviour,
so no probing is attempted. -/
theorem claim_C2_resolution_failure (target : String) (config : Option PortScan.RawConfig)
    (openOracle : Int → Bool) (order : List Int) (abort : Option (Nat × String))
    (now : String) (ports : Option (List Int)) (t : ℚ) (mw : Int)
    (probeOracle : Int → Option Banner.BannerEntry) (border : List Int)
    (babort : Option (Nat × String)) :
    (PortScan.run target none openOracle order abort now config).error
        = some ("Failed to resolve target: " ++ target) ∧
    (PortScan.run target none openOracle order abort now config).resolved_ip = none ∧
    (PortScan.run target none openOracle order abort now config).open_ports = [] ∧
    (∀ o2 or2 a2, PortScan.run target none o2 or2 a2 now config
        = PortScan.run target none openOracle order abort now config) ∧
    (Banner.bannerRun target ports t mw none probeOracle border babort now).error
        = some ("Failed to resolve target: " ++ target) ∧
    (Banner.bannerRun target ports t mw none probeOracle border babort now).resolved_ip
        = none ∧
    (Banner.bannerRun target ports t mw none probeOracle border babort now).banners = [] ∧
    (∀ p2 or2 a2, Banner.bannerRun target ports t mw none p2 or2 a2 now
        = Banner.bannerRun target ports t mw none probeOracle border babort now) ∧
    ("Failed to resolve target: " ++ target) ≠ "" := by
  refine ⟨rfl, rfl, rfl, fun _ _ _ => rfl, rfl, rfl, rfl, fun _ _ _ => rfl, ?_⟩
  intro h
  have h2 := congrArg String.length h
  simp [String.length_append] at h2
  exact absurd h2.1 (by decide)

/-- C3 counterexample: a port-scan run interrupted after one collected open
port returns a report whose error field is set and whose open_ports list is
non-empty, so the claim that a set error field implies an empty port list is
false as stated. -/
theorem claim_C3_counterexample :
    (PortScan.run "t" (some "1.2.3.4") (fun _ => true) [80]
        (some (1, PortScan.interruptedError)) ""
        (some ⟨none, some (.pylist [80]), none⟩)).error
      = some PortScan.interruptedError ∧
    (PortScan.run "t" (some "1.2.3.4") (fun _ => true) [80]
        (some (1, PortScan.interruptedError)) ""
        (some ⟨none, some (.pylist [80]), none⟩)).open_ports
      = [PortScan.mkPortEntry 80] ∧
    [PortScan.mkPortEntry 80] ≠ ([] : List PortScan.PortEntry) := by
  exact ⟨rfl, rfl, by decide⟩

/-- C3 amended: in a run that is neither interrupted nor stopped by an
executor exception (abort = none), a set error field implies an empty
open_ports list. -/
theorem claim_C3_amended (target : String) (resolve : Option String)
    (openOracle : Int → Bool) (order : List Int) (now : String)
    (config : Option PortScan.RawConfig)
    (h : (PortScan.run target resolve openOracle order none now config).error ≠ none) :
    (PortScan.run target resolve openOracle order none now config).open_ports = [] := by
  unfold PortScan.run at h ⊢
  cases resolve with
  | none => rfl
  | some ip =>
      by_cases hw : (PortScan.parse_config config).max_workers ≤ 0
      · simp only [hw, if_pos]
      · simp only [hw, if_neg, if_false] at h ⊢
        exact absurd rfl h

/-- C3 witness: the amended statement applied to a resolution failure. -/
theorem claim_C3_witness :
    (PortScan.run "x" none (fun _ => true) [] none "" none).error ≠ none ∧
    (PortScan.run "x" none (fun _ => true) [] none "" none).open_ports = [] :=
  ⟨by decide, claim_C3_amended "x" none (fun _ => true) [] "" none (by decide)⟩

/-- C4 counterexample: both probe functions call sock.settimeout before
entering the try/finally block, so with a negative timeout (reachable,
because _parse_config accepts any float) a ValueError propagates out of the
probe and the acquired socket is not closed: the claim fails for negative
timeouts. -/
theorem claim_C4_counterexample :
    (PortScan.scan_port_exec (.ret 0) 80 (-1)).closed = false ∧
    (PortScan.scan_port_exec (.ret 0) 80 (-1)).result
      = Except.error PortScan.timeoutValueError ∧
    (Banner.grab_banner_exec ⟨.ret 0, .timeout, true, .timeout, true, .timeout⟩
        80 (-1)).closed = false ∧
    (Banner.grab_banner_exec ⟨.ret 0, .timeout, true, .timeout, true, .timeout⟩
        80 (-1)).result = Except.error PortScan.timeoutValueError := by
  refine ⟨?_, ?_, ?_, ?_⟩ <;> rfl

/-- C4 amended: for every address, port and NON-NEGATIVE timeout, a single
probe invocation (port-check or banner variant) closes its socket on every
exit path — success, timeout and exception paths — and never lets an
exception propagate: every outcome is a typed Except.ok value. -/
theorem claim_C4_amended (co : PortScan.ConnectOutcome) (w : Banner.BannerWorld)
    (port bport : Int) (t t2 : ℚ) (ht : 0 ≤ t) (ht2 : 0 ≤ t2) :
    ((PortScan.scan_port_exec co port t).closed = true ∧
      ∃ r, (PortScan.scan_port_exec co port t).result = Except.ok r) ∧
    ((Banner.grab_banner_exec w bport t2).closed = true ∧
      ∃ r, (Banner.grab_banner_exec w bport t2).result = Except.ok r) := by
  have hnl : ¬ t < 0 := not_lt.mpr ht
  have hnl2 : ¬ t2 < 0 := not_lt.mpr ht2
  constructor
  · unfold PortScan.scan_port_exec
    rw [if_neg hnl]
    cases co <;> exact ⟨rfl, _, rfl⟩
  · unfold Banner.grab_banner_exec
    rw [if_neg hnl2]
    cases w.connect with
    | timeoutExc => exact ⟨rfl, _, rfl⟩
    | sockErr => exact ⟨rfl, _, rfl⟩
    | otherExc => exact ⟨rfl, _, rfl⟩
    | ret code =>
        dsimp only
        by_cases h0 : code ≠ 0
        · rw [if_pos h0]
          exact ⟨rfl, _, rfl⟩
        · rw [if_neg h0]
          cases w.recv1 <;> dsimp only <;> (repeat' split) <;> exact ⟨rfl, _, rfl⟩

/-- C4 witness: the amended statement applied to concrete probes with a
one-second timeout, an exception-raising connect for the port check and a
delivering read for the banner check. -/
theorem claim_C4_witness :
    ((PortScan.scan_port_exec .otherExc 80 1).closed = true ∧
      ∃ r, (PortScan.scan_port_exec .otherExc 80 1).result = Except.ok r) ∧
    ((Banner.grab_banner_exec ⟨.ret 0, .ok [104, 105], true, .timeout, true, .timeout⟩
        22 1).closed = true ∧
      ∃ r, (Banner.grab_banner_exec ⟨.ret 0, .ok [104, 105], true, .timeout, true,
        .timeout⟩ 22 1).result = Except.ok r) :=
  claim_C4_amended .otherExc ⟨.ret 0, .ok [104, 105], true, .timeout, true, .timeout⟩
    80 22 1 1 (by norm_num) (by norm_num)

/-- C5: for every successfully connected banner probe with a non-negative
timeout whose first read does not hit a fatal socket error and whose sends
succeed, the probe performs, in order: a passive read capped at 1024 bytes;
then, exactly when the result is empty and the port is one of
{80, 443, 8080, 8443}, an HTTP HEAD send followed by a second capped read;
then, exactly when the banner is still empty, a bare line-terminator send
followed by a third capped read — and a non-empty first read wins
immediately, producing the packaged banner with no further actions. -/
theorem claim_C5_protocol (w : Banner.BannerWorld) (port : Int) (t : ℚ)
    (ht : 0 ≤ t) (hc : w.connect = .ret 0)
    (hr1 : w.recv1 ≠ .sockErr) (hr1b : w.recv1 ≠ .otherErr)
    (hsh : w.sendHeadOk = true) (hsc : w.sendCrlfOk = true) :
    (Banner.grab_banner_exec w port t).trace
      = [Banner.BAct.recvA Banner.recvCap]
        ++ (if Banner.headStageRuns w port then
              [Banner.BAct.sendHeadA, Banner.BAct.recvA Banner.recvCap] else [])
        ++ (if Banner.bannerEmpty (Banner.headStageResult w port) then
              [Banner.BAct.sendCrlfA, Banner.BAct.recvA Banner.recvCap] else []) ∧
    Banner.headStageRuns w port
      = (Banner.bannerEmpty (Banner.passiveResult w) && Banner.webPorts.contains port) ∧
    (∀ s, Banner.passiveResult w = some s → s ≠ "" →
      (Banner.grab_banner_exec w port t).trace = [Banner.BAct.recvA Banner.recvCap] ∧
      (Banner.grab_banner_exec w port t).result
        = Except.ok (some (Banner.mkBannerEntry port s))) := by
  obtain ⟨conn, r1, sh, r2, sc, r3⟩ := w
  dsimp only at hc hr1 hr1b hsh hsc
  subst hc hsh hsc
  have hnl : ¬ t < 0 := not_lt.mpr ht
  unfold Banner.grab_banner_exec
  rw [if_neg hnl]
  dsimp only
  rw [if_neg (by simp : ¬ (0 : Int) ≠ 0)]
  cases r1 with
  | sockErr => exact absurd rfl hr1
  | otherErr => exact absurd rfl hr1b
  | timeout =>
      refine ⟨?_, rfl, ?_⟩
      · dsimp only
        simp [Banner.headStageRuns, Banner.passiveResult, Banner.bannerEmpty,
          Banner.headStageResult, Banner.fallbackRead]
      · intro s hps
        exact absurd hps (by simp [Banner.passiveResult])
  | ok bs =>
      refine ⟨?_, rfl, ?_⟩
      · dsimp only
        simp [Banner.headStageRuns, Banner.passiveResult, Banner.bannerEmpty,
          Banner.headStageResult, Banner.fallbackRead]
      · intro s hps hne
        have hs : s = Banner.cleanRecv bs := by
          simpa [Banner.passiveResult] using hps.symm
        subst hs
        have hd : (decide (Banner.cleanRecv bs = "")) = false := by
          simpa using hne
        dsimp only
        simp only [hd, Bool.false_and, fallbackRead_not_run, if_false,
          Bool.false_eq_true, List.append_nil]
        exact ⟨trivial, by rw [if_neg hne]⟩

/-- C5 witness: the protocol statement applied to a probe whose passive read
delivers the bytes "SSH" on port 22 — the first success wins and no send is
performed. -/
theorem claim_C5_witness :
    (Banner.grab_banner_exec ⟨.ret 0, .ok [83, 83, 72], true, .timeout, true,
        .timeout⟩ 22 1).trace = [Banner.BAct.recvA Banner.recvCap] ∧
    (Banner.grab_banner_exec ⟨.ret 0, .ok [83, 83, 72], true, .timeout, true,
        .timeout⟩ 22 1).result
      = Except.ok (some (Banner.mkBannerEntry 22 (Banner.cleanRecv [83, 83, 72]))) :=
  (claim_C5_protocol ⟨.ret 0, .ok [83, 83, 72], true, .timeout, true, .timeout⟩ 22 1
      (by norm_num) rfl (by decide) (by decide) rfl rfl).2.2
    (Banner.cleanRecv [83, 83, 72]) rfl (by decide)

set_option maxRecDepth 10000 in
/-- C6 counterexample: the source strips the decoded banner FIRST and
truncates to 500 characters only at the end, so a 501-character stripped
banner of 499 letters, a space and a letter is reported as its first 500
characters, which end in a space — the reported banner is NOT trimmed of
surrounding whitespace, refuting the claim as stated. -/
theorem claim_C6_counterexample :
    (Banner.grab_banner_exec
        ⟨.ret 0, .ok (List.replicate 499 97 ++ [32, 98]), true, .timeout, true,
          .timeout⟩ 80 1).result
      = Except.ok (some ⟨80, ⟨List.replicate 499 'a' ++ [' ']⟩, "HTTP"⟩) ∧
    Banner.stripStr ⟨List.replicate 499 'a' ++ [' ']⟩
      ≠ ⟨List.replicate 499 'a' ++ [' ']⟩ := by
  constructor
  · rfl
  · decide

/-- C6 amended: every reported banner is non-empty, at most 500 characters
long, and equal to the bytes of one of the probe reads — capped at 1024
bytes — decoded with invalid bytes DROPPED (errors=ignore, never raising),
then TRIMMED of surrounding whitespace, and only then truncated to 500
characters (so the reported text can end in whitespace reintroduced by the
truncation). -/
theorem claim_C6_amended (w : Banner.BannerWorld) (port : Int) (t : ℚ)
    (e : Banner.BannerEntry)
    (h : (Banner.grab_banner_exec w port t).result = Except.ok (some e)) :
    e.banner ≠ "" ∧
    e.banner.length ≤ 500 ∧
    ∃ bs, (w.recv1 = .ok bs ∨ w.recv2 = .ok bs ∨ w.recv3 = .ok bs) ∧
      e.banner
        = Banner.truncateBanner
            (Banner.stripStr (Banner.decodeBytes .ignore (bs.take Banner.recvCap))) := by
  obtain ⟨conn, r1, sh, r2, sc, r3⟩ := w
  unfold Banner.grab_banner_exec at h
  by_cases ht : t < 0
  · rw [if_pos ht] at h
    cases h
  · rw [if_neg ht] at h
    cases conn with
    | timeoutExc => simp at h
    | sockErr => simp at h
    | otherExc => simp at h
    | ret code =>
        dsimp only at h
        by_cases h0 : code ≠ 0
        · rw [if_pos h0] at h
          simp at h
        · rw [if_neg h0] at h
          cases r1 with
          | sockErr => simp at h
          | otherErr => simp at h
          | timeout =>
              dsimp only at h
              split at h
              · rename_i s heq
                split at h
                · simp at h
                · rename_i hse
                  obtain rfl : Banner.mkBannerEntry port s = e := by simpa using h
                  refine ⟨truncateBanner_ne_empty hse, truncateBanner_length s, ?_⟩
                  rcases fallbackRead_origin heq with h2 | ⟨bs3, hr3, rfl⟩
                  · rcases fallbackRead_origin h2 with h3 | ⟨bs2, hr2, rfl⟩
                    · cases h3
                    · exact ⟨bs2, Or.inr (Or.inl hr2), rfl⟩
                  · exact ⟨bs3, Or.inr (Or.inr hr3), rfl⟩
              · simp at h
          | ok bs =>
              dsimp only at h
              split at h
              · rename_i s heq
                split at h
                · simp at h
                · rename_i hse
                  obtain rfl : Banner.mkBannerEntry port s = e := by simpa using h
                  refine ⟨truncateBanner_ne_empty hse, truncateBanner_length s, ?_⟩
                  rcases fallbackRead_origin heq with h2 | ⟨bs3, hr3, rfl⟩
                  · rcases fallbackRead_origin h2 with h3 | ⟨bs2, hr2, rfl⟩
                    · injection h3 with h4
                      exact ⟨bs, Or.inl rfl, by subst h4; rfl⟩
                    · exact ⟨bs2, Or.inr (Or.inl hr2), rfl⟩
                  · exact ⟨bs3, Or.inr (Or.inr hr3), rfl⟩
              · simp at h

/-- C6 witness: the amended statement applied to a probe whose passive read
delivers " hi " — the reported banner is the stripped, truncated "hi". -/
theorem claim_C6_witness :
    (Banner.grab_banner_exec ⟨.ret 0, .ok [32, 104, 105, 32], true, .timeout, true,
        .timeout⟩ 22 1).result = Except.ok (some (Banner.mkBannerEntry 22 "hi")) ∧
    ((Banner.mkBannerEntry 22 "hi").banner ≠ "" ∧
     (Banner.mkBannerEntry 22 "hi").banner.length ≤ 500 ∧
     ∃ bs, ((Banner.RecvOutcome.ok [32, 104, 105, 32]) = .ok bs ∨
            (Banner.RecvOutcome.timeout) = .ok bs ∨
            (Banner.RecvOutcome.timeout) = .ok bs) ∧
       (Banner.mkBannerEntry 22 "hi").banner
         = Banner.truncateBanner
             (Banner.stripStr (Banner.decodeBytes .ignore
               (List.take Banner.recvCap bs)))) :=
  ⟨rfl,
   claim_C6_amended ⟨.ret 0, .ok [32, 104, 105, 32], true, .timeout, true, .timeout⟩
     22 1 (Banner.mkBannerEntry 22 "hi") rfl⟩

/-- C7 counterexample: the web-server rules run before the SSH rules, so a
banner containing both "apache" and "openssh" is labeled "Apache HTTP
Server" — the universally quantified example of the claim (every banner
containing "openssh" is labeled "OpenSSH") is false as stated. -/
theorem claim_C7_counterexample :
    Banner.containsSub (Banner.toLowerStr "apache openssh") "openssh" = true ∧
    Banner.identify_service "apache openssh" 22 = "Apache HTTP Server" ∧
    ("Apache HTTP Server" : String) ≠ "OpenSSH" := ⟨by decide, by decide, by decide⟩

/-- C7 amended: within the rule chain, vendor-specific rules take effect
before their generic counterparts — a banner containing "openssh" that
matches none of the earlier web-server patterns is labeled "OpenSSH" and
not the generic "SSH Server" — and when no pattern rule matches at all, the
label falls back to the static port table, with "Unknown" for an unlisted
port. -/
theorem claim_C7_amended :
    (∀ b p, Banner.containsSub (Banner.toLowerStr b) "openssh" = true →
      Banner.containsSub (Banner.toLowerStr b) "apache" = false →
      Banner.containsSub (Banner.toLowerStr b) "nginx" = false →
      Banner.containsSub (Banner.toLowerStr b) "iis" = false →
      Banner.containsSub (Banner.toLowerStr b) "lighttpd" = false →
      Banner.identify_service b p = "OpenSSH") ∧
    (∀ b p, (∀ pat ∈ Banner.allPatterns,
        Banner.containsSub (Banner.toLowerStr b) pat = false) →
      Banner.identify_service b p = (Banner.port_hints.lookup p).getD "Unknown") := by
  constructor
  · intro b p hssh ha hn hi hl
    have hms : Banner.containsSub (Banner.toLowerStr b) "microsoft-iis" = false := by
      cases hcase : Banner.containsSub (Banner.toLowerStr b) "microsoft-iis" with
      | false => rfl
      | true =>
          have h2 : Banner.containsSub (Banner.toLowerStr b) "iis" = true :=
            containsSub_trans hcase (by decide)
          simp [h2] at hi
    have hs : Banner.containsSub (Banner.toLowerStr b) "ssh" = true :=
      containsSub_trans hssh (by decide)
    simp only [Banner.identify_service, ha, hn, hms, hi, hl, hs, hssh,
      Bool.or_self, Bool.false_eq_true, if_false, if_true]
  · intro b p hall
    have h01 := hall "apache" (by decide)
    have h02 := hall "nginx" (by decide)
    have h03 := hall "microsoft-iis" (by decide)
    have h04 := hall "iis" (by decide)
    have h05 := hall "lighttpd" (by decide)
    have h06 := hall "openssh" (by decide)
    have h07 := hall "ssh" (by decide)
    have h08 := hall "vsftpd" (by decide)
    have h09 := hall "proftpd" (by decide)
    have h10 := hall "ftp" (by decide)
    have h11 := hall "postfix" (by decide)
    have h12 := hall "exim" (by decide)
    have h13 := hall "smtp" (by decide)
    have h14 := hall "mail" (by decide)
    have h15 := hall "mysql" (by decide)
    have h16 := hall "postgresql" (by decide)
    have h17 := hall "postgres" (by decide)
    have h18 := hall "redis" (by decide)
    have h19 := hall "mongodb" (by decide)
    have h20 := hall "mongo" (by decide)
    simp only [Banner.identify_service, h01, h02, h03, h04, h05, h06, h07, h08,
      h09, h10, h11, h12, h13, h14, h15, h16, h17, h18, h19, h20,
      Bool.or_self, Bool.false_eq_true, if_false]

/-- C7 witness: the amended statement applied to a pure OpenSSH banner and
to a pattern-free banner on an unlisted port. -/
theorem claim_C7_witness :
    Banner.identify_service "OpenSSH_8.2" 1 = "OpenSSH" ∧
    Banner.identify_service "zzz" 9999
      = (Banner.port_hints.lookup 9999).getD "Unknown" :=
  ⟨claim_C7_amended.1 "OpenSSH_8.2" 1 (by decide) (by decide) (by decide) (by decide)
     (by decide),
   claim_C7_amended.2 "zzz" 9999 (by decide)⟩

/-- C8 counterexample: a configuration with max_workers = 0 (an integer, so
int() conversion succeeds, but not a positive one) is passed through by
_parse_config unclamped; the ThreadPoolExecutor constructor then raises and
run returns an error report with no scan results instead of completing the
scan with a default worker count — even though the probe oracle reports the
requested port open. -/
theorem claim_C8_counterexample :
    (PortScan.parse_config (some ⟨none, some (.pylist [80]), some (some 0)⟩)).max_workers
      = 0 ∧
    (PortScan.run "t" (some "1.2.3.4") (fun _ => true) [80] none ""
        (some ⟨none, some (.pylist [80]), some (some 0)⟩)).error
      = some PortScan.badWorkersError ∧
    (PortScan.run "t" (some "1.2.3.4") (fun _ => true) [80] none ""
        (some ⟨none, some (.pylist [80]), some (some 0)⟩)).open_ports = [] := by
  exact ⟨rfl, rfl, rfl⟩

/-- C8 amended: only a max_workers value whose int() conversion fails (or an
absent key) is silently replaced by the default of 50, in which case the
scan completes normally with no error; integer values are taken as they
are, without clamping. -/
theorem claim_C8_amended (target ip : String) (openOracle : Int → Bool)
    (order : List Int) (now : String) (c : PortScan.RawConfig)
    (h : c.max_workers = some none ∨ c.max_workers = none) :
    (PortScan.parse_config (some c)).max_workers = 50 ∧
    (PortScan.run target (some ip) openOracle order none now (some c)).error = none ∧
    (PortScan.run target (some ip) openOracle order none now (some c)).open_ports
      = PortScan.sortEntries (PortScan.collectOpen openOracle order) := by
  have h50 : (PortScan.parse_config (some c)).max_workers = 50 := by
    rcases h with h | h <;>
      simp [PortScan.parse_config, h, PortScan.default_config]
  have hpos : ¬ (PortScan.parse_config (some c)).max_workers ≤ 0 := by
    rw [h50]; decide
  refine ⟨h50, ?_, ?_⟩ <;>
    · unfold PortScan.run
      simp only [hpos, if_neg, if_false]

/-- C8 witness: the amended statement applied to a configuration whose
max_workers entry fails conversion. -/
theorem claim_C8_witness :
    (PortScan.parse_config (some ⟨none, none, some none⟩)).max_workers = 50 ∧
    (PortScan.run "t" (some "1.2.3.4") (fun p => p == 80) [80, 22] none ""
        (some ⟨none, none, some none⟩)).error = none ∧
    (PortScan.run "t" (some "1.2.3.4") (fun p => p == 80) [80, 22] none ""
        (some ⟨none, none, some none⟩)).open_ports
      = PortScan.sortEntries
          (PortScan.collectOpen (fun p => p == 80) [80, 22]) :=
  claim_C8_amended "t" "1.2.3.4" (fun p => p == 80) [80, 22] ""
    ⟨none, none, some none⟩ (Or.inl rfl)

/-- C9 counterexample: an invalid timeout makes the CLI validator return a
hard failure instead of correcting it to a default, and the port-scan
module's own parser turns the invalid range (500, 100) into an empty port
list and completes the run without any error — so neither layer behaves as
the claim describes. -/
theorem claim_C9_counterexample :
    (Validator.validate_scan_options .noPorts 100 50).valid = false ∧
    (Validator.validate_scan_options .noPorts 100 50).error
        = some "Timeout must be between 0.5 and 30 seconds" ∧
    (PortScan.parse_config (some ⟨none, some (.pyrange (some (500, 100))), none⟩)).ports
        = [] ∧
    (PortScan.run "t" (some "1.2.3.4") (fun _ => true) [] none ""
        (some ⟨none, some (.pyrange (some (500, 100))), none⟩)).error = none := by
  have ht : Validator.validate_timeout 100 =
      { valid := false, error := some "Timeout must be between 0.5 and 30 seconds" } := by
    unfold Validator.validate_timeout
    rw [if_pos (by norm_num : (100 : ℚ) < 0.5 ∨ 30 < (100 : ℚ))]
  refine ⟨?_, ?_, rfl, rfl⟩ <;>
    simp [Validator.validate_scan_options, Validator.validate_ports, ht]

/-- C9 amended: the input validator rejects invalid port ranges and
out-of-range port lists as hard validation failures, but it equally rejects
invalid timeout and worker values as hard failures; only the port-scan
module's internal config parser silently replaces a timeout or worker value
whose conversion fails with the defaults 1.5 and 50. -/
theorem claim_C9_amended :
    (∀ s e : Int, (s < 1 ∨ 65535 < e ∨ e < s) →
      (Validator.validate_ports (.range s e)).valid = false) ∧
    (∀ (l : List Int) (p : Int), p ∈ l → (p < 1 ∨ 65535 < p) →
      (Validator.validate_ports (.plist l)).valid = false) ∧
    (∀ (pi : Validator.PortsInput) (t : ℚ) (w : Int), (t < 0.5 ∨ 30 < t) →
      (Validator.validate_scan_options pi t w).valid = false) ∧
    (∀ (pi : Validator.PortsInput) (t : ℚ) (w : Int), (w < 1 ∨ 200 < w) →
      (Validator.validate_scan_options pi t w).valid = false) ∧
    (∀ c : PortScan.RawConfig, c.timeout = some none →
      (PortScan.parse_config (some c)).timeout = 1.5) ∧
    (∀ c : PortScan.RawConfig, c.max_workers = some none →
      (PortScan.parse_config (some c)).max_workers = 50) := by
  refine ⟨?_, ?_, ?_, ?_, ?_, ?_⟩
  · intro s e h
    unfold Validator.validate_ports
    dsimp only
    rw [if_pos h]
  · intro l p hp hbad
    obtain ⟨q, hq⟩ := Option.isSome_iff_exists.mp (firstBadPort_isSome hp hbad)
    unfold Validator.validate_ports
    dsimp only
    rw [hq]
  · intro pi t w h
    have htc : (Validator.validate_timeout t).valid = false := by
      unfold Validator.validate_timeout
      rw [if_pos h]
    unfold Validator.validate_scan_options
    by_cases hpc : (Validator.validate_ports pi).valid
    · simp [hpc, htc]
    · simp [hpc]
  · intro pi t w h
    have hwc : (Validator.validate_workers w).valid = false := by
      unfold Validator.validate_workers
      rw [if_pos h]
    unfold Validator.validate_scan_options
    by_cases hpc : (Validator.validate_ports pi).valid
    · by_cases htc : (Validator.validate_timeout t).valid
      · simp [hpc, htc, hwc]
      · simp [hpc, htc]
    · simp [hpc]
  · intro c h
    simp [PortScan.parse_config, h, PortScan.default_config]
  · intro c h
    simp [PortScan.parse_config, h, PortScan.default_config]

/-- C9 witness: the amended statement applied to a reversed range, a list
with an out-of-range port, an out-of-range timeout, an out-of-range worker
count, and parser inputs with failing conversions. -/
theorem claim_C9_witness :
    (Validator.validate_ports (.range 500 100)).valid = false ∧
    (Validator.validate_ports (.plist [80, 99999])).valid = false ∧
    (Validator.validate_scan_options .noPorts 100 50).valid = false ∧
    (Validator.validate_scan_options .noPorts 1 500).valid = false ∧
    (PortScan.parse_config (some ⟨some none, none, none⟩)).timeout = 1.5 ∧
    (PortScan.parse_config (some ⟨none, none, some none⟩)).max_workers = 50 :=
  ⟨claim_C9_amended.1 500 100 (by norm_num),
   claim_C9_amended.2.1 [80, 99999] 99999 (by decide) (by norm_num),
   claim_C9_amended.2.2.1 .noPorts 100 50 (by norm_num),
   claim_C9_amended.2.2.2.1 .noPorts 1 500 (by norm_num),
   claim_C9_amended.2.2.2.2.1 ⟨some none, none, none⟩ rfl,
   claim_C9_amended.2.2.2.2.2 ⟨none, none, some none⟩ rfl⟩

/-- C10: every entry of the open_ports list of a successfully resolved run
has a port that belongs to the parsed configuration port list and a service
equal to the static SERVICE_MAP entry for that port, or "unknown" when the
port is not in the table. -/
theorem claim_C10_entries (target ip : String) (openOracle : Int → Bool)
    (order : List Int) (abort : Option (Nat × String)) (now : String)
    (config : Option PortScan.RawConfig)
    (hperm : order.Perm (PortScan.parse_config config).ports) :
    ∀ e ∈ (PortScan.run target (some ip) openOracle order abort now config).open_ports,
      e.port ∈ (PortScan.parse_config config).ports ∧
      e.service = (PortScan.SERVICE_MAP.lookup e.port).getD "unknown" := by
  intro e he
  unfold PortScan.run at he
  by_cases hw : (PortScan.parse_config config).max_workers ≤ 0
  · simp only [hw, if_pos] at he
    cases he
  · simp only [hw, if_neg, if_false] at he
    have hmem : e ∈ PortScan.collectOpen openOracle order ∨
        ∃ k, e ∈ PortScan.collectOpen openOracle (order.take k) := by
      cases abort with
      | none =>
          left
          simpa [PortScan.sortEntries] using he
      | some km =>
          right
          exact ⟨km.1, he⟩
    have hcore : e.port ∈ order ∧ e.service = PortScan.get_service_name e.port := by
      rcases hmem with h | ⟨k, h⟩
      · obtain ⟨hp, hs⟩ := mem_collectOpen h
        exact ⟨hp, hs⟩
      · obtain ⟨hp, hs⟩ := mem_collectOpen h
        exact ⟨List.take_subset k order hp, hs⟩
    exact ⟨hperm.subset hcore.1, hcore.2⟩

/-- C10 witness: the statement applied to a concrete resolved run over the
default port list. -/
theorem claim_C10_witness :
    PortScan.DEFAULT_PORTS.Perm (PortScan.parse_config none).ports ∧
    ∀ e ∈ (PortScan.run "t" (some "1.2.3.4") (fun p => p == 443)
        PortScan.DEFAULT_PORTS none "" none).open_ports,
      e.port ∈ (PortScan.parse_config none).ports ∧
      e.service = (PortScan.SERVICE_MAP.lookup e.port).getD "unknown" :=
  ⟨List.Perm.refl _,
   claim_C10_entries "t" "1.2.3.4" (fun p => p == 443) PortScan.DEFAULT_PORTS none ""
     none (List.Perm.refl _)⟩
